import Mathlib

/-!
Shallow embedding of the OAuth2 authorization flow of
`src/withings_data_collector/get_auth_code.py` (withings_data_collector).

Python values flowing through the token-response code are modelled by `PyVal`
(JSON-ish values), Python exceptions by `PyErr`, and the observable side
effects of a flow (starting the redirect listener, opening the browser,
POSTing to the token endpoint, calling `save_tokens`) by a trace of `Effect`s.
External inputs that the real functions obtain through I/O (the loaded
configuration, the HTTP response of the token endpoint, the `CallbackResult`
visible after the wait on the listener event) are passed as parameters.
-/

/-- A Python value as it appears in the token-endpoint JSON handling:
`None`, strings, integers, lists, and dicts (association lists, first
binding wins on lookup). -/
inductive PyVal where
  | none
  | str (s : String)
  | int (n : Int)
  | list (xs : List PyVal)
  | dict (fields : List (String × PyVal))

/-- Dict lookup returning an `Option` (`Option.none` when the key is absent);
this is the primitive under both `d[k]` and `d.get(k)`. -/
def pyLookup (fields : List (String × PyVal)) (k : String) : Option PyVal :=
  (fields.find? (fun p => p.1 == k)).map (fun p => p.2)

/-- Python `d.get(k)`: the value when present, the `None` object otherwise. -/
def pyGet (fields : List (String × PyVal)) (k : String) : PyVal :=
  (pyLookup fields k).getD PyVal.none

/-- Python `isinstance(v, dict)`. -/
def isDictB : PyVal → Bool
  | PyVal.dict _ => true
  | _ => false

/-- Python `v == n` for an int literal `n` (non-int values compare unequal). -/
def pyEqInt (v : PyVal) (n : Int) : Bool :=
  match v with
  | PyVal.int m => m == n
  | _ => false

/-- The exceptions raised by the flow. `configError`, `oauthError` and
`tokenRateLimitError` are the module's own classes; `keyError`,
`attributeError` and `typeError` model the built-in exceptions escaping from
dict subscripts, `.get` on a non-dict, and `expires_in // 3600` on a
non-integer; `httpError` models `requests.HTTPError` from
`raise_for_status`. Messages built with f-string interpolation of the raw
envelope in the source are abstracted to their fixed prefix. -/
inductive PyErr where
  | configError (msg : String)
  | oauthError (msg : String)
  | tokenRateLimitError (wait : PyVal)
  | keyError (key : String)
  | attributeError
  | typeError
  | httpError

/-- Python `d[k]`: the value, or a `KeyError` on a missing key. -/
def dictItem (fields : List (String × PyVal)) (k : String) : Except PyErr PyVal :=
  match pyLookup fields k with
  | Option.some v => Except.ok v
  | Option.none => Except.error (PyErr.keyError k)

/-- `parse_token_response(data)` (get_auth_code.py lines 108-123):
`body = data.get('body')`; if `body` is not a dict raise `OAuthError`,
otherwise return the tuple
`(body['access_token'], body['refresh_token'], body['userid'],
body['expires_in'])`, each subscript raising `KeyError` when absent
(evaluated left to right). Calling `.get` on a non-dict argument raises
`AttributeError`. -/
def parse_token_response (data : PyVal) : Except PyErr (PyVal × PyVal × PyVal × PyVal) :=
  match data with
  | PyVal.dict d =>
    match pyGet d "body" with
    | PyVal.dict b =>
      match dictItem b "access_token" with
      | Except.error er => Except.error er
      | Except.ok a =>
        match dictItem b "refresh_token" with
        | Except.error er => Except.error er
        | Except.ok r =>
          match dictItem b "userid" with
          | Except.error er => Except.error er
          | Except.ok u =>
            match dictItem b "expires_in" with
            | Except.error er => Except.error er
            | Except.ok e => Except.ok (a, r, u, e)
    | _ => Except.error (PyErr.oauthError "Invalid token response")
  | _ => Except.error PyErr.attributeError

/-- `CallbackResult` (get_auth_code.py lines 126-130): the shared record the
listener writes and the flow reads. -/
structure CallbackResult where
  code : Option String
  state : Option String

/-- The listener-side state touched by `do_GET`: the shared `CallbackResult`
and the `threading.Event` flag that unblocks the flow's wait. -/
structure ListenerState where
  result : CallbackResult
  event_set : Bool

/-- Split a character list at every occurrence of `sep`, accumulating the
current segment in reverse (every split in the source uses a one-character
separator). -/
def splitCharAux (sep : Char) : List Char → List Char → List (List Char)
  | [], acc => [acc.reverse]
  | c :: rest, acc =>
    if c = sep then acc.reverse :: splitCharAux sep rest []
    else splitCharAux sep rest (c :: acc)

/-- Python `s.split(sep)` for a one-character separator (the empty string
yields `[""]`). -/
def splitChar (sep : Char) (s : String) : List String :=
  (splitCharAux sep s.data []).map (fun l => String.mk l)

/-- Python `sep.join(xs)`. -/
def joinSep (sep : String) : List String → String
  | [] => ""
  | [x] => x
  | x :: rest => x ++ sep ++ joinSep sep rest

/-- The `path`/`query` parts that `urllib.parse.urlparse` extracts from an
origin-form request target: fragment stripped at the first `#`, query after
the first `?`. -/
structure UrlParts where
  path : String
  query : String

/-- `urllib.parse.urlparse` restricted to the `path` and `query` components
used by the handler and the flow. -/
def urlsplitReq (u : String) : UrlParts :=
  let noFrag := (splitChar '#' u).headD ""
  match splitChar '?' noFrag with
  | [] => { path := "", query := "" }
  | p :: rest => { path := p, query := joinSep "?" rest }

/-- One hex digit, as `urllib.parse.unquote` decodes percent escapes. -/
def hexDigit (c : Char) : Option Nat :=
  if '0' ≤ c ∧ c ≤ '9' then Option.some (c.toNat - '0'.toNat)
  else if 'a' ≤ c ∧ c ≤ 'f' then Option.some (c.toNat - 'a'.toNat + 10)
  else if 'A' ≤ c ∧ c ≤ 'F' then Option.some (c.toNat - 'A'.toNat + 10)
  else Option.none

/-- `urllib.parse.unquote_plus` on the character list: `+` becomes a space,
`%hh` decodes to the byte `hh` (single-byte code points; the claims only use
ASCII), malformed escapes emit the `%` and rescan from the next character.
Each step consumes at least one character and one unit of fuel, so running
with fuel equal to the list length computes the total decode. -/
def unquoteAux : Nat → List Char → List Char
  | 0, l => l
  | _ + 1, [] => []
  | fuel + 1, '%' :: a :: b :: rest =>
    (match hexDigit a, hexDigit b with
     | Option.some ha, Option.some hb => Char.ofNat (16 * ha + hb) :: unquoteAux fuel rest
     | _, _ => '%' :: unquoteAux fuel (a :: b :: rest))
  | fuel + 1, '+' :: rest => ' ' :: unquoteAux fuel rest
  | fuel + 1, c :: rest => c :: unquoteAux fuel rest

/-- `urllib.parse.unquote_plus` on strings. -/
def unquote_plus (s : String) : String := String.mk (unquoteAux s.data.length s.data)

/-- Python `s.split('=', 1)` viewed as an optional split at the first `=`
(`Option.none` when there is no `=`). -/
def splitFirstEq (s : String) : Option (String × String) :=
  match splitChar '=' s with
  | [] => Option.none
  | [_] => Option.none
  | n :: rest => Option.some (n, joinSep "=" rest)

/-- `urllib.parse.parse_qsl` with the default `keep_blank_values=False`:
split on `&`, drop empty segments, drop segments without `=` and segments
with an empty value, percent-decode names and values. -/
def parse_qsl (qs : String) : List (String × String) :=
  (splitChar '&' qs).filterMap (fun nv =>
    if nv = "" then Option.none
    else match splitFirstEq nv with
      | Option.none => Option.none
      | Option.some (n, v) =>
        if v = "" then Option.none
        else Option.some (unquote_plus n, unquote_plus v))

/-- Group a key into `parse_qs`'s dict-of-lists, appending to an existing
entry, preserving first-seen key order. -/
def insertAppend (acc : List (String × List String)) (k v : String) :
    List (String × List String) :=
  match acc with
  | [] => [(k, [v])]
  | (k0, vs) :: rest =>
    if k0 = k then (k0, vs ++ [v]) :: rest
    else (k0, vs) :: insertAppend rest k v

/-- `urllib.parse.parse_qs`: the pairs of `parse_qsl` grouped by name. -/
def parse_qs (qs : String) : List (String × List String) :=
  (parse_qsl qs).foldl (fun acc p => insertAppend acc p.1 p.2) []

/-- `params.get(k, [None])[0]`: the first value of the parameter when
present, `None` otherwise. -/
def qsFirst (params : List (String × List String)) (k : String) : Option String :=
  match (params.find? (fun p => p.1 == k)).map (fun p => p.2) with
  | Option.some (v :: _) => Option.some v
  | _ => Option.none

/-- Python truthiness of an optional string: `None` and `""` are falsy. -/
def strTruthy : Option String → Bool
  | Option.none => false
  | Option.some s => s != ""

/-- `OAuthCallbackHandler.do_GET` (get_auth_code.py lines 163-192), as a
function of the closed-over `expected_state`/`expected_path`, the listener
state, and `self.path`. Returns the HTTP status sent, the page text written,
and the updated listener state. -/
def do_GET (expected_state expected_path : String) (st : ListenerState)
    (reqPath : String) : Nat × String × ListenerState :=
  let parsed := urlsplitReq reqPath
  if parsed.path ≠ expected_path then
    (404, "Not found.", st)
  else
    let params := parse_qs parsed.query
    let code := qsFirst params "code"
    let state := qsFirst params "state"
    if strTruthy code = false then
      (400, "Missing authorization code.", st)
    else
      let st' : ListenerState := { result := { code := code, state := state }, event_set := true }
      if state ≠ Option.some expected_state then
        (400, "State mismatch. Authorization denied.", st')
      else
        (200, "Authorization received. You may close this tab.", st')

/-- `obtain_authorization_code_via_browser` (lines 197-245) after the server
setup, with the redirect capture abstracted: `cb` is the `CallbackResult`
visible to the flow once the wait finishes (`Option.none` means the event
never fired within the timeout). The post-wait validation follows lines
232-245 exactly. -/
def obtain_authorization_code_via_browser (expected_state : String)
    (cb : Option CallbackResult) : Except PyErr String :=
  match cb with
  | Option.none =>
    Except.error (PyErr.oauthError "Authorization timed out waiting for callback.")
  | Option.some result =>
    if result.state ≠ Option.some expected_state then
      Except.error (PyErr.oauthError "State validation failed.")
    else if strTruthy result.code = false then
      Except.error (PyErr.oauthError "Authorization code missing from callback.")
    else
      Except.ok (result.code.getD "")

/-- `requests.Response.raise_for_status`: raises exactly on 4xx/5xx. -/
def raise_for_status (code : Nat) : Bool :=
  decide (400 ≤ code) && decide (code < 600)

/-- A token-endpoint HTTP response: transport status code and decoded JSON. -/
structure HttpResponse where
  statusCode : Nat
  json : PyVal

/-- `exchange_code` (lines 248-283) given the endpoint's response:
`raise_for_status` then `parse_token_response(r.json())`. -/
def exchange_code (resp : HttpResponse) : Except PyErr (PyVal × PyVal × PyVal × PyVal) :=
  if raise_for_status resp.statusCode then Except.error PyErr.httpError
  else parse_token_response resp.json

/-- The observable side effects of a flow invocation, in order: starting the
redirect listener server, `webbrowser.open(auth_url)`, the POST to the token
endpoint, and `save_tokens(access_token, refresh_token)`. -/
inductive Effect where
  | startListener
  | openBrowser (url : String)
  | tokenRequest
  | save (access_token refresh_token : PyVal)

/-- The configuration and credentials `get_authorization_tokens` loads from
`withings_config.toml` and `.env` (already-loaded view).
`redirect_has_host_port` abstracts `urlparse(redirect_uri)` having both a
hostname and a port (lines 218-220). -/
structure OAuthConfig where
  account_url : String
  auth_endpoint : String
  wbsapi_url : String
  token_endpoint : String
  client_id : String
  redirect_uri : String
  allowed_scopes : List String
  default_scopes : String
  redirect_has_host_port : Bool

/-- `urllib.parse.urlencode`, with percent-escaping abstracted away (no claim
inspects the encoded text). -/
def urlencode (params : List (String × String)) : String :=
  String.intercalate "&" (params.map (fun p => p.1 ++ "=" ++ p.2))

/-- Scope resolution of `get_authorization_tokens` (lines 308-315): `None`
means use `default_scopes` verbatim; otherwise split on commas and raise
`OAuthError` at the first entry not in `allowed_scopes`, else re-join. -/
def resolve_scopes (cfg : OAuthConfig) (scopes : Option String) : Except PyErr String :=
  match scopes with
  | Option.none => Except.ok cfg.default_scopes
  | Option.some s =>
    let scope_list := splitChar ',' s
    match scope_list.find? (fun sc => !(cfg.allowed_scopes.contains sc)) with
    | Option.some bad => Except.error (PyErr.oauthError ("Invalid scope: " ++ bad))
    | Option.none => Except.ok (joinSep "," scope_list)

/-- `get_authorization_tokens` (lines 286-356) as a function of the loaded
configuration, the caller's `scopes`, the generated `state` nonce, the
`CallbackResult` observed after the listener wait, and the token endpoint's
response. Returns the trace of side effects together with the result. The
`expires_in // 3600` in the success logging raises `TypeError` on a non-int
`expires_in` (after `save_tokens` has already run). -/
def get_authorization_tokens (cfg : OAuthConfig) (scopes : Option String)
    (state : String) (cb : Option CallbackResult) (resp : HttpResponse) :
    List Effect × Except PyErr (List (String × PyVal)) :=
  match resolve_scopes cfg scopes with
  | Except.error er => ([], Except.error er)
  | Except.ok ss =>
    let auth_url := cfg.account_url ++ cfg.auth_endpoint ++ "?" ++ urlencode
      [("response_type", "code"), ("client_id", cfg.client_id), ("state", state),
       ("scope", ss), ("redirect_uri", cfg.redirect_uri)]
    if cfg.redirect_has_host_port = false then
      ([], Except.error (PyErr.configError "WITHINGS_REDIRECT_URI must include host and port."))
    else
      let trace := [Effect.startListener, Effect.openBrowser auth_url]
      match obtain_authorization_code_via_browser state cb with
      | Except.error er => (trace, Except.error er)
      | Except.ok _ =>
        let trace := trace ++ [Effect.tokenRequest]
        match exchange_code resp with
        | Except.error er => (trace, Except.error er)
        | Except.ok (a, r, u, e) =>
          let trace := trace ++ [Effect.save a r]
          match e with
          | PyVal.int n =>
            (trace, Except.ok [("access_token", a), ("refresh_token", r),
                               ("userid", u), ("expires_in", PyVal.int n)])
          | _ => (trace, Except.error PyErr.typeError)

/-- `refresh_authorization_tokens` (lines 359-419) as a function of the token
endpoint's response (configuration, credentials and the stored refresh token
are loaded externally and do not affect the branches modelled). Returns the
trace of side effects together with the result: `raise_for_status`; reject a
non-dict JSON payload; inspect `status` (`601` raises `TokenRateLimitError`
with `body.get('wait_seconds')` when `body` is a dict and `None` otherwise,
any other non-zero raises `OAuthError`); on `status == 0` parse the body and
`save_tokens(access_token, new_refresh_token)` before returning the dict.
The `expires_in // 3600` in the success logging raises `TypeError` on a
non-int `expires_in` (after `save_tokens` has already run). -/
def refresh_authorization_tokens (resp : HttpResponse) :
    List Effect × Except PyErr (List (String × PyVal)) :=
  let trace := [Effect.tokenRequest]
  if raise_for_status resp.statusCode then (trace, Except.error PyErr.httpError)
  else match resp.json with
    | PyVal.dict top =>
      let status := pyGet top "status"
      let body := pyGet top "body"
      if pyEqInt status 0 = false then
        if pyEqInt status 601 then
          let wait := match body with
            | PyVal.dict b => pyGet b "wait_seconds"
            | _ => PyVal.none
          (trace, Except.error (PyErr.tokenRateLimitError wait))
        else
          (trace, Except.error (PyErr.oauthError "Refresh failed"))
      else
        match parse_token_response (PyVal.dict top) with
        | Except.error er => (trace, Except.error er)
        | Except.ok (a, r, u, e) =>
          let trace := trace ++ [Effect.save a r]
          match e with
          | PyVal.int n =>
            (trace, Except.ok [("access_token", a), ("refresh_token", r),
                               ("userid", u), ("expires_in", PyVal.int n)])
          | _ => (trace, Except.error PyErr.typeError)
    | _ => (trace, Except.error (PyErr.oauthError "Invalid token response (not dict)"))

/-- Whether an `Except` result is a success. -/
def exceptIsOk {α : Type} : Except PyErr α → Bool
  | Except.ok _ => true
  | Except.error _ => false

/-- Whether an `Except` result failed with the module's `OAuthError`. -/
def isOAuthErrorB {α : Type} : Except PyErr α → Bool
  | Except.error (PyErr.oauthError _) => true
  | _ => false

/-- A concrete loaded configuration used to instantiate the theorems below;
`allowed_scopes` and `default_scopes` follow the spec's example values. -/
def cfg0 : OAuthConfig :=
  { account_url := "https://account.withings.com",
    auth_endpoint := "/oauth2_user/authorize2",
    wbsapi_url := "https://wbsapi.withings.net",
    token_endpoint := "/v2/oauth2",
    client_id := "cid",
    redirect_uri := "http://localhost:8080/callback",
    allowed_scopes := ["user.info", "user.metrics"],
    default_scopes := "user.info,user.metrics",
    redirect_has_host_port := true }

/-- The listener state at flow start: empty `CallbackResult`, event unset. -/
def st0 : ListenerState :=
  { result := { code := Option.none, state := Option.none }, event_set := false }

/-- A body with the two tokens and a userid but no `expires_in`. -/
def bodyNoExpires : List (String × PyVal) :=
  [("access_token", PyVal.str "A"), ("refresh_token", PyVal.str "R"),
   ("userid", PyVal.str "U")]

/-- A body with the two tokens and an `expires_in` but no userid. -/
def bodyNoUserid : List (String × PyVal) :=
  [("access_token", PyVal.str "A"), ("refresh_token", PyVal.str "R"),
   ("expires_in", PyVal.int 7200)]

/-- A body lacking `access_token`. -/
def bodyNoAccess : List (String × PyVal) :=
  [("refresh_token", PyVal.str "R"), ("userid", PyVal.str "U"),
   ("expires_in", PyVal.int 7200)]

/-- Claim C7: on the envelope `{status: 0, body: {access_token: "A",
refresh_token: "R", userid: "U", expires_in: 7200}}`, `parse_token_response`
yields exactly the quadruple `("A", "R", "U", 7200)`. -/
theorem C7_parse_roundtrip :
    parse_token_response (PyVal.dict
      [("status", PyVal.int 0),
       ("body", PyVal.dict
         [("access_token", PyVal.str "A"), ("refresh_token", PyVal.str "R"),
          ("userid", PyVal.str "U"), ("expires_in", PyVal.int 7200)])])
      = Except.ok (PyVal.str "A", PyVal.str "R", PyVal.str "U", PyVal.int 7200) := rfl

/-- Claim C4 counterexample: on an envelope whose body has `access_token` and
`refresh_token` (and `userid`) but no `expires_in`, the parser does not
succeed with the 10800 fallback — it fails with `KeyError('expires_in')`. -/
theorem C4_no_fallback_cex :
    parse_token_response (PyVal.dict [("status", PyVal.int 0), ("body", PyVal.dict bodyNoExpires)])
        = Except.error (PyErr.keyError "expires_in")
    ∧ exceptIsOk (parse_token_response
        (PyVal.dict [("status", PyVal.int 0), ("body", PyVal.dict bodyNoExpires)])) = false :=
  And.intro rfl rfl

/-- Claim C4 (amended): the parser has no `expires_in` fallback. When the
body carries `access_token`, `refresh_token` and `userid`, a missing
`expires_in` raises `KeyError('expires_in')`, and a present `expires_in` is
returned verbatim, numeric or not — never replaced by 10800. -/
theorem C4_expires_in_amended (top body : List (String × PyVal)) (a r u : PyVal)
    (hbody : pyGet top "body" = PyVal.dict body)
    (ha : pyLookup body "access_token" = Option.some a)
    (hr : pyLookup body "refresh_token" = Option.some r)
    (hu : pyLookup body "userid" = Option.some u) :
    (pyLookup body "expires_in" = Option.none →
      parse_token_response (PyVal.dict top) = Except.error (PyErr.keyError "expires_in"))
    ∧ (∀ v, pyLookup body "expires_in" = Option.some v →
      parse_token_response (PyVal.dict top) = Except.ok (a, r, u, v)) := by
  constructor
  · intro he
    simp [parse_token_response, dictItem, hbody, ha, hr, hu, he]
  · intro v he
    simp [parse_token_response, dictItem, hbody, ha, hr, hu, he]

/-- Witness for C4_expires_in_amended at a concrete envelope. -/
theorem C4_expires_in_amended_witness :
    parse_token_response (PyVal.dict [("body", PyVal.dict bodyNoExpires)])
      = Except.error (PyErr.keyError "expires_in") :=
  (C4_expires_in_amended [("body", PyVal.dict bodyNoExpires)] bodyNoExpires
    (PyVal.str "A") (PyVal.str "R") (PyVal.str "U") rfl rfl rfl rfl).1 rfl

/-- Claim C5 counterexample: on an envelope whose body has `access_token`,
`refresh_token` and `expires_in` but no user id field, the parser does not
succeed with the user id absent — it fails with `KeyError('userid')`. -/
theorem C5_userid_optional_cex :
    parse_token_response (PyVal.dict [("status", PyVal.int 0), ("body", PyVal.dict bodyNoUserid)])
        = Except.error (PyErr.keyError "userid")
    ∧ exceptIsOk (parse_token_response
        (PyVal.dict [("status", PyVal.int 0), ("body", PyVal.dict bodyNoUserid)])) = false :=
  And.intro rfl rfl

/-- Claim C5 (amended): `userid` is required by the parser. On every envelope
whose body carries `access_token` and `refresh_token` but no `userid` key,
`parse_token_response` fails with `KeyError('userid')` instead of returning
the token pair with the user id absent. -/
theorem C5_userid_required (top body : List (String × PyVal)) (a r : PyVal)
    (hbody : pyGet top "body" = PyVal.dict body)
    (ha : pyLookup body "access_token" = Option.some a)
    (hr : pyLookup body "refresh_token" = Option.some r)
    (hu : pyLookup body "userid" = Option.none) :
    parse_token_response (PyVal.dict top) = Except.error (PyErr.keyError "userid") := by
  simp [parse_token_response, dictItem, hbody, ha, hr, hu]

/-- Witness for C5_userid_required at a concrete envelope. -/
theorem C5_userid_required_witness :
    parse_token_response (PyVal.dict [("body", PyVal.dict bodyNoUserid)])
      = Except.error (PyErr.keyError "userid") :=
  C5_userid_required [("body", PyVal.dict bodyNoUserid)] bodyNoUserid
    (PyVal.str "A") (PyVal.str "R") rfl rfl rfl rfl

/-- Claim C6 counterexample: on an envelope whose body lacks `access_token`,
the parser fails with `KeyError('access_token')`, not with `OAuthError` as
the claim states. -/
theorem C6_missing_token_cex :
    parse_token_response (PyVal.dict [("status", PyVal.int 0), ("body", PyVal.dict bodyNoAccess)])
        = Except.error (PyErr.keyError "access_token")
    ∧ isOAuthErrorB (parse_token_response
        (PyVal.dict [("status", PyVal.int 0), ("body", PyVal.dict bodyNoAccess)])) = false :=
  And.intro rfl rfl

/-- Claim C6 (amended): an envelope that lacks a `body` dict fails with
`OAuthError`, as claimed; but a body missing `access_token` or (with
`access_token` present) missing `refresh_token` fails with the corresponding
`KeyError`, not `OAuthError`. -/
theorem C6_required_fields (top body : List (String × PyVal)) :
    (isDictB (pyGet top "body") = false →
      parse_token_response (PyVal.dict top)
        = Except.error (PyErr.oauthError "Invalid token response"))
    ∧ (pyGet top "body" = PyVal.dict body →
        pyLookup body "access_token" = Option.none →
      parse_token_response (PyVal.dict top)
        = Except.error (PyErr.keyError "access_token"))
    ∧ (∀ a, pyGet top "body" = PyVal.dict body →
        pyLookup body "access_token" = Option.some a →
        pyLookup body "refresh_token" = Option.none →
      parse_token_response (PyVal.dict top)
        = Except.error (PyErr.keyError "refresh_token")) := by
  refine ⟨?_, ?_, ?_⟩
  · intro hnd
    unfold parse_token_response
    cases hb : pyGet top "body" with
    | dict b => rw [hb] at hnd; simp [isDictB] at hnd
    | none => simp [hb]
    | str s => simp [hb]
    | int n => simp [hb]
    | list xs => simp [hb]
  · intro hbody ha
    simp [parse_token_response, dictItem, hbody, ha]
  · intro a hbody ha hr
    simp [parse_token_response, dictItem, hbody, ha, hr]

/-- Witness for C6_required_fields at a concrete envelope. -/
theorem C6_required_fields_witness :
    parse_token_response (PyVal.dict [("status", PyVal.int 0), ("body", PyVal.str "x")])
      = Except.error (PyErr.oauthError "Invalid token response") :=
  (C6_required_fields [("status", PyVal.int 0), ("body", PyVal.str "x")] []).1 rfl

/-- Helper: `parse_token_response` succeeds and returns the four body fields
verbatim when all of them are present. -/
theorem parse_token_response_ok (top body : List (String × PyVal)) (a r u e : PyVal)
    (hbody : pyGet top "body" = PyVal.dict body)
    (ha : pyLookup body "access_token" = Option.some a)
    (hr : pyLookup body "refresh_token" = Option.some r)
    (hu : pyLookup body "userid" = Option.some u)
    (he : pyLookup body "expires_in" = Option.some e) :
    parse_token_response (PyVal.dict top) = Except.ok (a, r, u, e) := by
  simp [parse_token_response, dictItem, hbody, ha, hr, hu, he]

/-- Helper: 2xx transport status codes do not trip `raise_for_status`. -/
theorem raise_for_status_2xx (sc : Nat) (h2 : 200 ≤ sc ∧ sc < 300) :
    raise_for_status sc = false := by
  unfold raise_for_status
  have h4 : ¬ (400 ≤ sc) := by omega
  simp [h4]

/-- Claim C2: on a 2xx refresh response whose JSON has `status: 601`,
`refresh_authorization_tokens` raises `TokenRateLimitError` carrying
`body.get('wait_seconds')` when `body` is a dict (so the field's value when
present, `None` when the body lacks it) and `None` when the envelope has no
dict `body` at all; `save_tokens` is never called, leaving stored tokens
unchanged. -/
theorem C2_refresh_rate_limited (sc : Nat) (h2 : 200 ≤ sc ∧ sc < 300)
    (top : List (String × PyVal))
    (hstatus : pyGet top "status" = PyVal.int 601) :
    (∀ b, pyGet top "body" = PyVal.dict b →
      refresh_authorization_tokens { statusCode := sc, json := PyVal.dict top }
        = ([Effect.tokenRequest],
           Except.error (PyErr.tokenRateLimitError (pyGet b "wait_seconds"))))
    ∧ (isDictB (pyGet top "body") = false →
      refresh_authorization_tokens { statusCode := sc, json := PyVal.dict top }
        = ([Effect.tokenRequest],
           Except.error (PyErr.tokenRateLimitError PyVal.none)))
    ∧ (∀ a r, Effect.save a r ∉
        (refresh_authorization_tokens { statusCode := sc, json := PyVal.dict top }).1) := by
  have hrf := raise_for_status_2xx sc h2
  refine ⟨?_, ?_, ?_⟩
  · intro b hb
    simp [refresh_authorization_tokens, hrf, hstatus, hb, pyEqInt]
  · intro hnd
    cases hb : pyGet top "body" with
    | dict b => rw [hb] at hnd; simp [isDictB] at hnd
    | none => simp [refresh_authorization_tokens, hrf, hstatus, hb, pyEqInt]
    | str s => simp [refresh_authorization_tokens, hrf, hstatus, hb, pyEqInt]
    | int n => simp [refresh_authorization_tokens, hrf, hstatus, hb, pyEqInt]
    | list xs => simp [refresh_authorization_tokens, hrf, hstatus, hb, pyEqInt]
  · intro a r
    cases hb : pyGet top "body" with
    | dict b => simp [refresh_authorization_tokens, hrf, hstatus, hb, pyEqInt]
    | none => simp [refresh_authorization_tokens, hrf, hstatus, hb, pyEqInt]
    | str s => simp [refresh_authorization_tokens, hrf, hstatus, hb, pyEqInt]
    | int n => simp [refresh_authorization_tokens, hrf, hstatus, hb, pyEqInt]
    | list xs => simp [refresh_authorization_tokens, hrf, hstatus, hb, pyEqInt]

/-- Witness for C2_refresh_rate_limited: `{status: 601, body:
{wait_seconds: 30}}` raises `TokenRateLimitError` with wait 30. -/
theorem C2_refresh_rate_limited_witness :
    refresh_authorization_tokens
      { statusCode := 200,
        json := PyVal.dict [("status", PyVal.int 601),
                            ("body", PyVal.dict [("wait_seconds", PyVal.int 30)])] }
      = ([Effect.tokenRequest],
         Except.error (PyErr.tokenRateLimitError (PyVal.int 30))) :=
  (C2_refresh_rate_limited 200 (And.intro (by decide) (by decide))
      [("status", PyVal.int 601), ("body", PyVal.dict [("wait_seconds", PyVal.int 30)])]
      rfl).1 [("wait_seconds", PyVal.int 30)] rfl

/-- Claim C9: on a 2xx refresh response with `status: 0` and a body carrying
all four fields (numeric `expires_in`), `refresh_authorization_tokens` calls
`save_tokens` exactly once, with the new access token and the rotated
refresh token, before returning, and returns the dict with exactly those
`access_token`, `refresh_token`, `userid` and `expires_in` values. -/
theorem C9_refresh_success (sc : Nat) (h2 : 200 ≤ sc ∧ sc < 300)
    (top body : List (String × PyVal)) (a r u : PyVal) (n : Int)
    (hstatus : pyGet top "status" = PyVal.int 0)
    (hbody : pyGet top "body" = PyVal.dict body)
    (ha : pyLookup body "access_token" = Option.some a)
    (hr : pyLookup body "refresh_token" = Option.some r)
    (hu : pyLookup body "userid" = Option.some u)
    (he : pyLookup body "expires_in" = Option.some (PyVal.int n)) :
    refresh_authorization_tokens { statusCode := sc, json := PyVal.dict top }
      = ([Effect.tokenRequest, Effect.save a r],
         Except.ok [("access_token", a), ("refresh_token", r),
                    ("userid", u), ("expires_in", PyVal.int n)]) := by
  have hrf := raise_for_status_2xx sc h2
  have hp := parse_token_response_ok top body a r u (PyVal.int n) hbody ha hr hu he
  simp [refresh_authorization_tokens, hrf, hstatus, hp, pyEqInt]

/-- Witness for C9_refresh_success at a concrete envelope. -/
theorem C9_refresh_success_witness :
    refresh_authorization_tokens
      { statusCode := 200,
        json := PyVal.dict
          [("status", PyVal.int 0),
           ("body", PyVal.dict
             [("access_token", PyVal.str "A2"), ("refresh_token", PyVal.str "R2"),
              ("userid", PyVal.str "U"), ("expires_in", PyVal.int 10800)])] }
      = ([Effect.tokenRequest, Effect.save (PyVal.str "A2") (PyVal.str "R2")],
         Except.ok [("access_token", PyVal.str "A2"), ("refresh_token", PyVal.str "R2"),
                    ("userid", PyVal.str "U"), ("expires_in", PyVal.int 10800)]) :=
  C9_refresh_success 200 (And.intro (by decide) (by decide))
    [("status", PyVal.int 0),
     ("body", PyVal.dict
       [("access_token", PyVal.str "A2"), ("refresh_token", PyVal.str "R2"),
        ("userid", PyVal.str "U"), ("expires_in", PyVal.int 10800)])]
    [("access_token", PyVal.str "A2"), ("refresh_token", PyVal.str "R2"),
     ("userid", PyVal.str "U"), ("expires_in", PyVal.int 10800)]
    (PyVal.str "A2") (PyVal.str "R2") (PyVal.str "U") 10800
    rfl rfl rfl rfl rfl rfl

/-- Claim C10: on a 2xx refresh response whose JSON payload is not a dict,
`refresh_authorization_tokens` fails with `OAuthError` and no tokens are
persisted (the trace holds no `save`). -/
theorem C10_refresh_nondict (sc : Nat) (h2 : 200 ≤ sc ∧ sc < 300)
    (j : PyVal) (hj : isDictB j = false) :
    refresh_authorization_tokens { statusCode := sc, json := j }
      = ([Effect.tokenRequest],
         Except.error (PyErr.oauthError "Invalid token response (not dict)")) := by
  have hrf := raise_for_status_2xx sc h2
  cases j with
  | dict d => simp [isDictB] at hj
  | none => simp [refresh_authorization_tokens, hrf]
  | str s => simp [refresh_authorization_tokens, hrf]
  | int n => simp [refresh_authorization_tokens, hrf]
  | list xs => simp [refresh_authorization_tokens, hrf]

/-- Witness for C10_refresh_nondict on a JSON list payload. -/
theorem C10_refresh_nondict_witness :
    refresh_authorization_tokens { statusCode := 200, json := PyVal.list [PyVal.int 1] }
      = ([Effect.tokenRequest],
         Except.error (PyErr.oauthError "Invalid token response (not dict)")) :=
  C10_refresh_nondict 200 (And.intro (by decide) (by decide)) (PyVal.list [PyVal.int 1]) rfl

/-- Claim C8: an inbound request whose path differs from the configured
callback path gets a 404 and leaves the listener state untouched — the
shared `CallbackResult` is not modified and the completion event is not set,
so the authorization wait cannot complete from that request. -/
theorem C8_wrong_path (expected_state expected_path : String) (st : ListenerState)
    (req : String) (hpath : (urlsplitReq req).path ≠ expected_path) :
    do_GET expected_state expected_path st req = (404, "Not found.", st) := by
  simp [do_GET, hpath]

/-- Witness for C8_wrong_path on a concrete probe request. -/
theorem C8_wrong_path_witness :
    do_GET "S" "/callback" st0 "/other" = (404, "Not found.", st0) :=
  C8_wrong_path "S" "/callback" st0 "/other" (by decide)

/-- Claim C3: a caller-supplied scope string containing an entry outside
`allowed_scopes` makes `get_authorization_tokens` fail with `OAuthError`
with an empty effect trace — no listener started, no browser opened, no
token-endpoint request; and with no caller scope, `default_scopes` is used
verbatim with no validation. -/
theorem C3_scope_validation (cfg : OAuthConfig) (s state : String)
    (cb : Option CallbackResult) (resp : HttpResponse) (bad : String)
    (hbad : (splitChar ',' s).find? (fun sc => !(cfg.allowed_scopes.contains sc))
        = Option.some bad) :
    get_authorization_tokens cfg (Option.some s) state cb resp
        = ([], Except.error (PyErr.oauthError ("Invalid scope: " ++ bad)))
    ∧ resolve_scopes cfg Option.none = Except.ok cfg.default_scopes := by
  have hres : resolve_scopes cfg (Option.some s)
      = Except.error (PyErr.oauthError ("Invalid scope: " ++ bad)) := by
    simp only [resolve_scopes]
    rw [hbad]
  constructor
  · simp [get_authorization_tokens, hres]
  · rfl

/-- Witness for C3_scope_validation: requesting `user.activity` against
`allowed_scopes = [user.info, user.metrics]` fails before any effect. -/
theorem C3_scope_validation_witness :
    get_authorization_tokens cfg0 (Option.some "user.activity") "S" Option.none
      { statusCode := 200, json := PyVal.none }
      = ([], Except.error (PyErr.oauthError ("Invalid scope: " ++ "user.activity"))) :=
  (C3_scope_validation cfg0 "user.activity" "S" Option.none
    { statusCode := 200, json := PyVal.none } "user.activity" rfl).1

/-- Claim C1: when the redirect listener receives a request on the callback
path with a (truthy) `code` parameter but a `state` parameter different from
the expected state, the listener records the pair and sets the event with a
400 page, and the flow reading that result fails with
`OAuthError("State validation failed.")`; its effect trace holds no
`save_tokens` call. -/
theorem C1_state_mismatch (expected_state expected_path req : String)
    (st : ListenerState) (c : String) (s : Option String)
    (hpath : (urlsplitReq req).path = expected_path)
    (hcode : qsFirst (parse_qs (urlsplitReq req).query) "code" = Option.some c)
    (hc : c ≠ "")
    (hstate : qsFirst (parse_qs (urlsplitReq req).query) "state" = s)
    (hs : s ≠ Option.some expected_state)
    (cfg : OAuthConfig) (scopes : Option String) (ss : String)
    (hscope : resolve_scopes cfg scopes = Except.ok ss)
    (hredir : cfg.redirect_has_host_port = true)
    (resp : HttpResponse) :
    do_GET expected_state expected_path st req
        = (400, "State mismatch. Authorization denied.",
           { result := { code := Option.some c, state := s }, event_set := true })
    ∧ (get_authorization_tokens cfg scopes expected_state
          (Option.some { code := Option.some c, state := s }) resp).2
        = Except.error (PyErr.oauthError "State validation failed.")
    ∧ (∀ a r, Effect.save a r ∉
        (get_authorization_tokens cfg scopes expected_state
          (Option.some { code := Option.some c, state := s }) resp).1) := by
  refine ⟨?_, ?_, ?_⟩
  · simp [do_GET, hpath, hcode, hstate, strTruthy, hc, hs]
  · simp [get_authorization_tokens, hscope, hredir,
          obtain_authorization_code_via_browser, hs]
  · intro a r
    simp [get_authorization_tokens, hscope, hredir,
          obtain_authorization_code_via_browser, hs]

/-- Witness for C1_state_mismatch: a callback with `code=abc` and a wrong
`state=BAD` against expected state `GOOD`. -/
theorem C1_state_mismatch_witness :
    do_GET "GOOD" "/callback" st0 "/callback?code=abc&state=BAD"
        = (400, "State mismatch. Authorization denied.",
           { result := { code := Option.some "abc", state := Option.some "BAD" },
             event_set := true })
    ∧ (get_authorization_tokens cfg0 Option.none "GOOD"
          (Option.some { code := Option.some "abc", state := Option.some "BAD" })
          { statusCode := 200, json := PyVal.none }).2
        = Except.error (PyErr.oauthError "State validation failed.") := by
  have h := C1_state_mismatch "GOOD" "/callback" "/callback?code=abc&state=BAD"
    st0 "abc" (Option.some "BAD") rfl rfl (by decide) rfl (by decide)
    cfg0 Option.none cfg0.default_scopes rfl rfl
    { statusCode := 200, json := PyVal.none }
  exact And.intro h.1 h.2.1
